import Mathlib

/-!
Shallow embedding of the analysis core of the Website-Analysis repository
(src/website_analyzer.py and src/itc_website_analyzer.py).

The two Python files share an identical extraction / scoring / recommendation
core; each function below is translated from the named Python function (the
scoring and recommendation logic is inline code in the Python files and is
modelled by defs of the same shape).  A parsed HTML document (a BeautifulSoup
tree) is modelled as the list of its elements in document order; each element
carries its tag name, its concatenated descendant text (BeautifulSoup
element.text) and its attribute list.
-/

/-- Whitespace characters recognised by Python str.strip, str.split and the
regular-expression class backslash-s on ASCII input. -/
def isPySpace (c : Char) : Bool :=
  c = ' ' || c = '\t' || c = '\n' || c = '\r' || c = '\x0b' || c = '\x0c'

/-- ASCII letter test, the character class a-zA-Z of the keyword regex. -/
def isAsciiLetter (c : Char) : Bool :=
  ('a' ≤ c && c ≤ 'z') || ('A' ≤ c && c ≤ 'Z')

/-- Python str.strip: remove leading and trailing whitespace. -/
def pyStrip (s : String) : String :=
  ⟨((s.data.dropWhile isPySpace).reverse.dropWhile isPySpace).reverse⟩

/-- Python str.lower restricted to ASCII.  Non-ASCII characters are left
unchanged (the Unicode case mapping of str.lower is not modelled; every
character outside a-zA-Z and whitespace is removed by the filter that
immediately follows the lowering step in extract_keywords). -/
def toLowerAscii (c : Char) : Char :=
  if 'A' ≤ c && c ≤ 'Z' then Char.ofNat (c.toNat + 32) else c

/-- One element of the parsed HTML tree: tag name, concatenated descendant
text (BeautifulSoup element.text) and attribute list in source order. -/
structure Element where
  tag : String
  text : String
  attrs : List (String × String)
deriving DecidableEq

/-- A parsed document, modelled as its elements flattened in document order. -/
abbrev HtmlDoc := List Element

/-- Attribute lookup, modelling element.get(name) / element[name] of
BeautifulSoup (first binding wins). -/
def getAttr (e : Element) (name : String) : Option String :=
  (e.attrs.find? (fun p => p.1 == name)).map (fun p => p.2)

/-- soup.find_all(tag): every element with the given tag, in document order. -/
def findAll (doc : HtmlDoc) (tag : String) : List Element :=
  doc.filter (fun e => e.tag == tag)

/-- soup.find(tag): the first element with the given tag, if any. -/
def findFirst (doc : HtmlDoc) (tag : String) : Option Element :=
  (findAll doc tag).head?

/-- soup.find("meta", attrs = ...): first meta element whose given attribute
has exactly the given value. -/
def findMetaBy (doc : HtmlDoc) (attrName attrVal : String) : Option Element :=
  (doc.filter (fun e => e.tag == "meta" && getAttr e attrName == some attrVal)).head?

/-- The extracted metadata record built by extract_meta_tags. -/
structure MetaData where
  title : String
  title_length : ℕ
  description : String
  description_length : ℕ
  meta_keywords : String
  og_title : String
  og_description : String
deriving DecidableEq

/-- Models the Python pattern: elem["content"] if elem and elem.get("content")
else sentinel.  The attribute must be present and truthy (non-empty). -/
def contentAttrOr (e : Option Element) (sentinel : String) : String :=
  match e with
  | some el =>
    match getAttr el "content" with
    | some v => if v = "" then sentinel else v
    | none => sentinel
  | none => sentinel

/-- extract_meta_tags of both source files (they are identical): title text of
the first title element, stripped, with sentinel "No title found"; the length
fields count the characters of the resolved string, sentinel included. -/
def extract_meta_tags (doc : HtmlDoc) : MetaData :=
  let title := match findFirst doc "title" with
    | some t => pyStrip t.text
    | none => "No title found"
  let description := contentAttrOr (findMetaBy doc "name" "description") "No description found"
  let meta_keywords := contentAttrOr (findMetaBy doc "name" "keywords") "No keywords found"
  let og_title := contentAttrOr (findMetaBy doc "property" "og:title") "Not set"
  let og_description := contentAttrOr (findMetaBy doc "property" "og:description") "Not set"
  ⟨title, title.length, description, description.length, meta_keywords, og_title, og_description⟩

/-- extract_headings of both source files: for each level 1..6 collect the
stripped texts of all matching elements in document order, keyed by the tag
name, preserving the insertion order of the Python dict. -/
def extract_headings (doc : HtmlDoc) : List (String × List String) :=
  (List.range' 1 6).map
    (fun i => ("h" ++ toString i, (findAll doc ("h" ++ toString i)).map (fun t => pyStrip t.text)))

/-- The stop-word set of extract_keywords, transcribed from the Python set
literal of both source files. -/
def stop_words : List String :=
  ["the", "a", "an", "and", "or", "but", "in", "on", "at", "to", "for",
   "of", "with", "is", "was", "are", "be", "been", "have", "has", "had",
   "do", "does", "did", "will", "would", "could", "should", "may", "might",
   "this", "that", "these", "those", "it", "its", "from", "by", "as"]

/-- Python str.split with no argument: split on runs of whitespace, no empty
tokens.  The accumulator holds the current token reversed. -/
def splitWsAux : List Char → List Char → List String
  | [], acc => if acc.isEmpty then [] else [⟨acc.reverse⟩]
  | c :: cs, acc =>
    if isPySpace c then
      if acc.isEmpty then splitWsAux cs [] else ⟨acc.reverse⟩ :: splitWsAux cs []
    else splitWsAux cs (c :: acc)

/-- Split a character list into whitespace-separated tokens. -/
def splitWs (cs : List Char) : List String := splitWsAux cs []

/-- Record one occurrence of a word in an association list, preserving
first-encounter order (collections.Counter keeps dict insertion order). -/
def addWord : List (String × ℕ) → String → List (String × ℕ)
  | [], w => [(w, 1)]
  | (x, n) :: rest, w =>
    if x = w then (x, n + 1) :: rest else (x, n) :: addWord rest w

/-- Frequency count of a word list, entries in first-encounter order
(collections.Counter). -/
def countWords (ws : List String) : List (String × ℕ) :=
  ws.foldl addWord []

/-- Insert a pair into a list sorted by decreasing count, after all entries of
equal or larger count, so that the overall sort is stable (heapq.nlargest,
used by Counter.most_common, breaks ties by original position). -/
def insertDesc (p : String × ℕ) : List (String × ℕ) → List (String × ℕ)
  | [] => [p]
  | q :: qs => if q.2 < p.2 then p :: q :: qs else q :: insertDesc p qs

/-- Stable sort by decreasing count. -/
def sortDesc (l : List (String × ℕ)) : List (String × ℕ) :=
  l.foldl (fun acc p => insertDesc p acc) []

/-- Counter.most_common(n): the n most frequent entries, count descending,
ties broken by first-encounter order. -/
def mostCommon (n : ℕ) (l : List (String × ℕ)) : List (String × ℕ) :=
  (sortDesc l).take n

/-- extract_keywords of both source files: lower-case, keep only ASCII letters
and whitespace, split on whitespace, drop stop words and tokens of length at
most 3, count, return the top_n most frequent.  In Python top_n defaults to
20; every call site uses the default. -/
def extract_keywords (text : String) (top_n : ℕ) : List (String × ℕ) :=
  mostCommon top_n (countWords
    ((splitWs ((text.data.map toLowerAscii).filter (fun c => isAsciiLetter c || isPySpace c))).filter
      (fun w => !(stop_words.contains w) && decide (3 < w.length))))

/-- Python str.startswith, by structural recursion on the character lists (the
byte-position functions of the core String library are avoided so that every
definition evaluates by kernel reduction). -/
def startswith (s pre : String) : Bool := pre.data.isPrefixOf s.data

/-- Characters allowed in a URL scheme after the leading letter
(urllib.parse scheme_chars). -/
def isSchemeChar (c : Char) : Bool :=
  isAsciiLetter c || c.isDigit || c = '+' || c = '-' || c = '.'

/-- Models the scheme split of urllib.parse.urlparse: if the URL starts with a
valid scheme followed by a colon, return the scheme and the remainder. -/
def splitScheme (url : String) : Option (String × String) :=
  let pre := url.data.takeWhile (fun c => c != ':')
  if pre.length < url.data.length && !pre.isEmpty &&
      isAsciiLetter (pre.headD ' ') && pre.all isSchemeChar then
    some (⟨pre⟩, ⟨url.data.drop (pre.length + 1)⟩)
  else none

/-- The URL with any scheme prefix removed. -/
def schemeRest (url : String) : String :=
  match splitScheme url with
  | some p => p.2
  | none => url

/-- Models urllib.parse.urlparse(url).netloc: the authority component, present
only after a double slash, ended by a slash, question mark or hash. -/
def netlocOf (url : String) : String :=
  let rest := (schemeRest url).data
  if ['/', '/'].isPrefixOf rest then
    ⟨(rest.drop 2).takeWhile (fun c => c != '/' && c != '?' && c != '#')⟩
  else ""

/-- The part of the URL after scheme and authority. -/
def afterNetloc (url : String) : String :=
  let rest := (schemeRest url).data
  if ['/', '/'].isPrefixOf rest then
    ⟨(rest.drop 2).dropWhile (fun c => c != '/' && c != '?' && c != '#')⟩
  else ⟨rest⟩

/-- The path component of the URL, without query or fragment. -/
def pathOnly (url : String) : String :=
  ⟨(afterNetloc url).data.takeWhile (fun c => c != '?' && c != '#')⟩

/-- The directory of a path: everything up to and including the last slash. -/
def dirOf (p : String) : String :=
  ⟨(p.data.reverse.dropWhile (fun c => c != '/')).reverse⟩

/-- Models urllib.parse.urljoin for the reference forms relevant here:
absolute references, scheme-relative, fragment-only, query-only, root-relative
and simple relative paths.  Dot-segment normalisation and the per-scheme
special cases of urllib are outside the scope of every claim, which quantify
over the resolved URL only through its netloc. -/
def urljoin (base href : String) : String :=
  if href = "" then base
  else if (splitScheme href).isSome then href
  else
    let scheme := match splitScheme base with
      | some p => p.1
      | none => ""
    if startswith href "//" then scheme ++ ":" ++ href
    else if startswith href "#" then ⟨base.data.takeWhile (fun c => c != '#')⟩ ++ href
    else if startswith href "?" then scheme ++ "://" ++ netlocOf base ++ pathOnly base ++ href
    else if startswith href "/" then scheme ++ "://" ++ netlocOf base ++ href
    else
      let d := dirOf (pathOnly base)
      scheme ++ "://" ++ netlocOf base ++ (if d = "" then "/" else d) ++ href

/-- The anchors considered by analyze_links: soup.find_all("a", href=True),
the anchor elements that carry an href attribute. -/
def hrefAnchors (doc : HtmlDoc) : List Element :=
  (findAll doc "a").filter (fun e => (getAttr e "href").isSome)

/-- The classification predicate of analyze_links: a resolved URL is internal
when its netloc equals the netloc of the base URL or is empty. -/
def isInternal (base_domain : String) (u : String) : Bool :=
  netlocOf u == base_domain || netlocOf u == ""

/-- analyze_links of src/website_analyzer.py (identical in the other file):
resolve the href of every anchor that has one against the base URL and split
the resolved URLs, in document order and without deduplication, into the
internal and the external list.  The anchors are pre-filtered to those with an
href, so the getD default is never consulted (the Python subscript
link["href"] likewise cannot fail there). -/
def analyze_links (doc : HtmlDoc) (base_url : String) : List String × List String :=
  let base_domain := netlocOf base_url
  let full := (hrefAnchors doc).map (fun e => urljoin base_url ((getAttr e "href").getD ""))
  (full.filter (fun u => isInternal base_domain u),
   full.filter (fun u => !isInternal base_domain u))

/-- The image statistics record built by analyze_images. -/
structure ImageStats where
  total : ℕ
  with_alt : ℕ
  without_alt : ℕ
deriving DecidableEq

/-- The per-image test of analyze_images: img.get("alt") is truthy, that is,
the alt attribute is present with a non-empty value. -/
def hasAltAttr (e : Element) : Bool :=
  match getAttr e "alt" with
  | some v => v != ""
  | none => false

/-- analyze_images of both source files: count all img elements and those with
a truthy alt attribute; without_alt is the difference. -/
def analyze_images (doc : HtmlDoc) : ImageStats :=
  let images := findAll doc "img"
  let total := images.length
  let with_alt := images.countP hasAltAttr
  ⟨total, with_alt, total - with_alt⟩

/-- Check 6 of src/website_analyzer.py line 264, guarded: with_alt is compared
against total times 0.7 only when total is positive, otherwise the check
fails.  The Python comparison of an int against total * 0.7 is modelled
exactly over the rationals as 10 * with_alt > 7 * total; the two can differ
only where 10 * with_alt equals 7 * total (the double closest to 0.7 lies
just below 7/10), a boundary no claim touches and one unreachable when
total = 0. -/
def imagesAltCheck (img : ImageStats) : Bool :=
  if 0 < img.total then decide (7 * img.total < 10 * img.with_alt) else false

/-- Check 6 of src/itc_website_analyzer.py line 238, unguarded: the same
comparison without the positivity guard; note that it is a multiplication,
not a division, so total = 0 makes it compare with_alt against zero rather
than fail. -/
def imagesAltCheckItc (img : ImageStats) : Bool :=
  decide (7 * img.total < 10 * img.with_alt)

/-- The fixed ordered SEO checklist of src/website_analyzer.py lines 258-265
(src/itc_website_analyzer.py lines 232-239 differs only in using the
unguarded form of the last check). -/
def checks (m : MetaData) (img : ImageStats) (url : String) : List (String × Bool) :=
  [("Title tag present", m.title != "No title found"),
   ("Title length optimal", decide (30 ≤ m.title_length) && decide (m.title_length ≤ 60)),
   ("Meta description present", m.description != "No description found"),
   ("Description length optimal",
     decide (120 ≤ m.description_length) && decide (m.description_length ≤ 160)),
   ("SSL enabled", startswith url "https"),
   ("Images have alt tags", imagesAltCheck img)]

/-- The number of passed checks, the score accumulator of the source. -/
def passedChecks (m : MetaData) (img : ImageStats) (url : String) : ℕ :=
  (checks m img url).countP (fun c => c.2)

/-- seo_score: (score / total_checks) * 100 with total_checks = 6, modelled
over the rationals (the Python float division is exact only at 0, 50 and 100;
the claims state the intended exact arithmetic). -/
def seo_score (m : MetaData) (img : ImageStats) (url : String) : ℚ :=
  (passedChecks m img url : ℚ) / 6 * 100

/-- One recommendation record of the recommendation engine. -/
structure Recommendation where
  priority : String
  category : String
  issue : String
  recommendation : String
deriving DecidableEq

/-- The title-length recommendation (src/website_analyzer.py lines 559-565). -/
def recTitleLen : Recommendation :=
  ⟨"High", "SEO", "Title Tag Length",
   "Optimize title tag length to 30-60 characters for better search visibility"⟩

/-- The description-length recommendation (lines 567-573). -/
def recDescLen : Recommendation :=
  ⟨"High", "SEO", "Meta Description Length",
   "Optimize meta description to 120-160 characters"⟩

/-- The missing-h1 recommendation (lines 575-581). -/
def recH1 : Recommendation :=
  ⟨"Critical", "Content", "Missing H1 Tags",
   "Add H1 tags to your pages - crucial for SEO"⟩

/-- The missing-alt-text recommendation (lines 583-589); the issue text
interpolates the count of images without alt text. -/
def recAlt (n : ℕ) : Recommendation :=
  ⟨"Medium", "Accessibility", toString n ++ " Images Without Alt Text",
   "Add descriptive alt text to all images for better SEO and accessibility"⟩

/-- The slow-load recommendation (lines 591-597). -/
def recLoad : Recommendation :=
  ⟨"High", "Performance", "Slow Page Load Time",
   "Optimize page load time to under 3 seconds (consider image compression, caching, CDN)"⟩

/-- The missing-SSL recommendation (lines 599-605). -/
def recSsl : Recommendation :=
  ⟨"Critical", "Security", "No SSL Certificate",
   "Implement SSL certificate (HTTPS) immediately for security and SEO"⟩

/-- The recommendation engine of src/website_analyzer.py lines 557-605: six
independent conditions evaluated in fixed order, each appending one record.
Load time is modelled as a rational. -/
def recommendations (m : MetaData) (hs : List (String × List String)) (img : ImageStats)
    (load_time : ℚ) (url : String) : List Recommendation :=
  (if ¬(30 ≤ m.title_length ∧ m.title_length ≤ 60) then [recTitleLen] else []) ++
  (if ¬(120 ≤ m.description_length ∧ m.description_length ≤ 160) then [recDescLen] else []) ++
  (if ((hs.lookup "h1").getD []).isEmpty then [recH1] else []) ++
  (if 0 < img.without_alt then [recAlt img.without_alt] else []) ++
  (if 3 < load_time then [recLoad] else []) ++
  (if startswith url "https" then [] else [recSsl])

/-- Modelled from the wording of the specification, section 4.7: the fixed
ordered list of the six trigger conditions with their recommendation records,
against which the transcription of the source is compared. -/
def recCandidates (m : MetaData) (hs : List (String × List String)) (img : ImageStats)
    (load_time : ℚ) (url : String) : List (Bool × Recommendation) :=
  [(decide (¬(30 ≤ m.title_length ∧ m.title_length ≤ 60)), recTitleLen),
   (decide (¬(120 ≤ m.description_length ∧ m.description_length ≤ 160)), recDescLen),
   (((hs.lookup "h1").getD []).isEmpty, recH1),
   (decide (0 < img.without_alt), recAlt img.without_alt),
   (decide (3 < load_time), recLoad),
   (!startswith url "https", recSsl)]

/-! Helper lemmas about the sorting and counting combinators. -/

/-- The ordering relation of the keyword list: the later entry has a count no
larger than the earlier one. -/
def freqGe (a b : String × ℕ) : Prop := b.2 ≤ a.2

/-- Membership in an insertion adds at most the inserted element. -/
theorem mem_insertDesc {x p : String × ℕ} : ∀ {l : List (String × ℕ)},
    x ∈ insertDesc p l → x = p ∨ x ∈ l
  | [], h => by
    simp [insertDesc] at h
    exact Or.inl h
  | q :: qs, h => by
    by_cases hq : q.2 < p.2
    · simp only [insertDesc, if_pos hq, List.mem_cons] at h
      rcases h with h | h
      · exact Or.inl h
      · exact Or.inr (List.mem_cons.mpr h)
    · simp only [insertDesc, if_neg hq, List.mem_cons] at h
      rcases h with h | h
      · exact Or.inr (by simp [h])
      · rcases mem_insertDesc h with h | h
        · exact Or.inl h
        · exact Or.inr (List.mem_cons_of_mem _ h)

/-- Inserting preserves the sorted-by-decreasing-count invariant. -/
theorem pairwise_insertDesc {p : String × ℕ} : ∀ {l : List (String × ℕ)},
    List.Pairwise freqGe l → List.Pairwise freqGe (insertDesc p l)
  | [], _ => by simp [insertDesc, freqGe]
  | q :: qs, h => by
    rcases List.pairwise_cons.mp h with ⟨hq, hqs⟩
    by_cases hlt : q.2 < p.2
    · simp only [insertDesc, if_pos hlt]
      refine List.pairwise_cons.mpr ⟨?_, h⟩
      intro y hy
      rcases List.mem_cons.mp hy with rfl | hy2
      · exact Nat.le_of_lt hlt
      · exact Nat.le_trans (hq y hy2) (Nat.le_of_lt hlt)
    · simp only [insertDesc, if_neg hlt]
      refine List.pairwise_cons.mpr ⟨?_, pairwise_insertDesc hqs⟩
      intro y hy
      rcases mem_insertDesc hy with rfl | hy2
      · exact Nat.le_of_not_lt hlt
      · exact hq y hy2

/-- Folding insertions over any sorted accumulator keeps it sorted. -/
theorem pairwise_foldl_insertDesc : ∀ (l acc : List (String × ℕ)),
    List.Pairwise freqGe acc →
    List.Pairwise freqGe (l.foldl (fun a p => insertDesc p a) acc)
  | [], _, h => h
  | p :: ps, acc, h => pairwise_foldl_insertDesc ps (insertDesc p acc) (pairwise_insertDesc h)

/-- The stable sort produces a list sorted by decreasing count. -/
theorem pairwise_sortDesc (l : List (String × ℕ)) : List.Pairwise freqGe (sortDesc l) :=
  pairwise_foldl_insertDesc l [] (List.Pairwise.nil)

/-- Claim C1: the SEO score is computed from the fixed ordered checklist of 6
boolean predicates as passed count over 6 times 100; it is a pure function of
the extracted MetaData, the ImageStats and the original URL string (seo_score
is literally such a function), lies in the interval from 0 to 100, and equals
100 * k / 6 for an integer k between 0 and 6, namely the number of passed
checks. -/
theorem seo_score_quantized (m : MetaData) (img : ImageStats) (url : String) :
    0 ≤ seo_score m img url ∧ seo_score m img url ≤ 100 ∧
    ∃ k : ℕ, k ≤ 6 ∧ seo_score m img url = 100 * k / 6 := by
  have hk : passedChecks m img url ≤ 6 := by
    have h := List.countP_le_length (fun c : String × Bool => c.2) (l := checks m img url)
    simpa [checks] using h
  have h6 : (passedChecks m img url : ℚ) ≤ 6 := by exact_mod_cast hk
  have h0 : (0 : ℚ) ≤ (passedChecks m img url : ℚ) := by positivity
  refine ⟨?_, ?_, passedChecks m img url, hk, ?_⟩
  · unfold seo_score
    positivity
  · unfold seo_score
    rw [div_mul_eq_mul_div, div_le_iff₀ (by norm_num : (0 : ℚ) < 6)]
    linarith
  · unfold seo_score
    ring

/-- Claim C5: the keyword list has length at most top_n and its frequency
components are non-increasing from the first entry to the last. -/
theorem extract_keywords_sorted (text : String) (top_n : ℕ) :
    (extract_keywords text top_n).length ≤ top_n ∧
    List.Pairwise freqGe (extract_keywords text top_n) := by
  constructor
  · exact List.length_take_le _ _
  · exact (pairwise_sortDesc _).sublist (List.take_sublist _ _)

/-- Claim C4, counterexample: the stop-word set of the source has 39 distinct
members, not 29 as the claim states. -/
theorem stop_words_not_29 : stop_words.length = 39 ∧ stop_words.length ≠ 29 ∧ stop_words.Nodup :=
  ⟨rfl, by decide, by decide⟩

/-- Claim C4, amended: the keyword extractor lower-cases, strips every
character that is not an ASCII letter or whitespace, splits on whitespace,
drops stop words (a fixed set of 39, not 29, common English function words)
and tokens of length at most 3, counts, and returns the most frequent entries
with ties in first-encounter order; on the text of the scenario, the and fox
are excluded and quick, brown, jumps each appear with frequency 1. -/
theorem extract_keywords_scenario :
    extract_keywords "The quick brown fox jumps" 20 = [("quick", 1), ("brown", 1), ("jumps", 1)] ∧
    stop_words.length = 39 := by
  exact ⟨by decide, rfl⟩

/-- Claim C7: analyze_images counts an image as having alt exactly when the
alt attribute is present with a truthy (non-empty) value, and the returned
statistics satisfy with_alt + without_alt = total. -/
theorem analyze_images_invariant (doc : HtmlDoc) :
    (analyze_images doc).with_alt + (analyze_images doc).without_alt = (analyze_images doc).total ∧
    (analyze_images doc).with_alt = ((findAll doc "img").filter hasAltAttr).length ∧
    ∀ e : Element, hasAltAttr e = true ↔ ∃ v, getAttr e "alt" = some v ∧ v ≠ "" := by
  refine ⟨?_, ?_, ?_⟩
  · show (findAll doc "img").countP hasAltAttr +
      ((findAll doc "img").length - (findAll doc "img").countP hasAltAttr) =
      (findAll doc "img").length
    exact Nat.add_sub_cancel' (List.countP_le_length _)
  · exact List.countP_eq_length_filter _ _
  · intro e
    unfold hasAltAttr
    rcases h : getAttr e "alt" with _ | v <;> simp [h]

/-- Claim C10: the heading extractor returns a mapping whose keys are exactly
h1 through h6 in order, each bound to the possibly empty list of
whitespace-trimmed heading texts of that level in document order, so looking
up any of the six levels always succeeds. -/
theorem extract_headings_six_levels (doc : HtmlDoc) :
    (extract_headings doc).map Prod.fst = ["h1", "h2", "h3", "h4", "h5", "h6"] ∧
    (extract_headings doc).lookup "h1" = some ((findAll doc "h1").map (fun t => pyStrip t.text)) ∧
    (extract_headings doc).lookup "h2" = some ((findAll doc "h2").map (fun t => pyStrip t.text)) ∧
    (extract_headings doc).lookup "h3" = some ((findAll doc "h3").map (fun t => pyStrip t.text)) ∧
    (extract_headings doc).lookup "h4" = some ((findAll doc "h4").map (fun t => pyStrip t.text)) ∧
    (extract_headings doc).lookup "h5" = some ((findAll doc "h5").map (fun t => pyStrip t.text)) ∧
    (extract_headings doc).lookup "h6" = some ((findAll doc "h6").map (fun t => pyStrip t.text)) :=
  ⟨rfl, rfl, rfl, rfl, rfl, rfl, rfl⟩

/-- Claim C2: with zero img elements analyze_images returns the all-zero
statistics, check 6 evaluates to not passed in both source variants, and the
score equals the score of the first five checks alone, so the alt-coverage
point is not gained. -/
theorem zero_images_check_not_passed (doc : HtmlDoc) (m : MetaData) (url : String)
    (h : findAll doc "img" = []) :
    analyze_images doc = ⟨0, 0, 0⟩ ∧
    imagesAltCheck (analyze_images doc) = false ∧
    imagesAltCheckItc (analyze_images doc) = false ∧
    seo_score m (analyze_images doc) url =
      100 * (((checks m (analyze_images doc) url).take 5).countP (fun c => c.2) : ℚ) / 6 := by
  have hst : analyze_images doc = ⟨0, 0, 0⟩ := by
    unfold analyze_images
    rw [h]
    rfl
  refine ⟨hst, by rw [hst]; rfl, by rw [hst]; rfl, ?_⟩
  rw [hst]
  unfold seo_score passedChecks checks imagesAltCheck
  simp only [List.countP_cons, List.countP_nil, List.take]
  norm_num
  ring

/-- Claim C2, witness: the empty document has no images, and the conclusion
holds for it with the metadata of the empty document and the default URL. -/
theorem zero_images_check_not_passed_witness :
    findAll ([] : HtmlDoc) "img" = [] ∧
    (analyze_images ([] : HtmlDoc) = ⟨0, 0, 0⟩ ∧
     imagesAltCheck (analyze_images ([] : HtmlDoc)) = false ∧
     imagesAltCheckItc (analyze_images ([] : HtmlDoc)) = false ∧
     seo_score (extract_meta_tags []) (analyze_images ([] : HtmlDoc)) "https://www.itcportal.com" =
       100 * (((checks (extract_meta_tags []) (analyze_images ([] : HtmlDoc))
         "https://www.itcportal.com").take 5).countP (fun c => c.2) : ℚ) / 6) :=
  ⟨rfl, zero_images_check_not_passed [] (extract_meta_tags []) "https://www.itcportal.com" rfl⟩

/-- Claim C3, counterexample: at the image statistics actually produced for a
document with zero images, namely total = with_alt = without_alt = 0, the
guarded and the unguarded check agree (both evaluate to not passed), and no
division occurs in either (both multiply); the claimed disagreement at
total = 0 does not happen on any statistics the code produces. -/
theorem alt_checks_agree_at_zero_images :
    analyze_images ([] : HtmlDoc) = ⟨0, 0, 0⟩ ∧
    imagesAltCheck ⟨0, 0, 0⟩ = imagesAltCheckItc ⟨0, 0, 0⟩ ∧
    imagesAltCheckItc ⟨0, 0, 0⟩ = false :=
  ⟨rfl, rfl, rfl⟩

/-- Claim C3, amended: the guarded (website_analyzer) and unguarded
(itc_website_analyzer) versions of check 6 both compare with_alt against
total * 0.7 by multiplication, not division, so neither can crash; they agree
on every ImageStats satisfying the data-model invariant
with_alt + without_alt = total, in particular on every output of
analyze_images and hence also when total = 0, where both fail the check; as
raw functions of an unconstrained triple they differ only on
invariant-violating inputs such as total = 0 with with_alt = 1. -/
theorem alt_checks_equivalent_on_valid_stats :
    (∀ s : ImageStats, s.with_alt + s.without_alt = s.total →
      imagesAltCheck s = imagesAltCheckItc s) ∧
    (∀ doc : HtmlDoc, imagesAltCheck (analyze_images doc) = imagesAltCheckItc (analyze_images doc)) ∧
    imagesAltCheck ⟨0, 1, 0⟩ ≠ imagesAltCheckItc ⟨0, 1, 0⟩ := by
  have key : ∀ s : ImageStats, s.with_alt ≤ s.total → imagesAltCheck s = imagesAltCheckItc s := by
    intro s hle
    unfold imagesAltCheck imagesAltCheckItc
    rcases Nat.eq_zero_or_pos s.total with h0 | hpos
    · have hw : s.with_alt = 0 := Nat.le_zero.mp (h0 ▸ hle)
      simp [h0, hw]
    · rw [if_pos hpos]
  refine ⟨fun s hs => key s (by omega), fun doc => key _ ?_, by decide⟩
  exact List.countP_le_length _

/-- Claim C3, witness: a valid statistics record with five images, four of
them with alt text, on which the two checks agree. -/
theorem alt_checks_equivalent_on_valid_stats_witness :
    (⟨5, 4, 1⟩ : ImageStats).with_alt + (⟨5, 4, 1⟩ : ImageStats).without_alt =
      (⟨5, 4, 1⟩ : ImageStats).total ∧
    imagesAltCheck ⟨5, 4, 1⟩ = imagesAltCheckItc ⟨5, 4, 1⟩ :=
  ⟨by decide, alt_checks_equivalent_on_valid_stats.1 ⟨5, 4, 1⟩ (by decide)⟩

/-- Claim C6: the link classifier processes exactly the anchors with an href
attribute, classifies each resolved URL as internal when its host equals the
base host or is empty and as external otherwise, without deduplication; the
classification is a partition (no URL is a member of both lists) and the
number of classified links equals, hence is at most, the number of anchors
with an href. -/
theorem analyze_links_partition (doc : HtmlDoc) (base_url : String) :
    (∀ u, u ∈ (analyze_links doc base_url).1 → u ∉ (analyze_links doc base_url).2) ∧
    (analyze_links doc base_url).1.length + (analyze_links doc base_url).2.length
      = (hrefAnchors doc).length := by
  constructor
  · intro u hu hv
    have h1 : isInternal (netlocOf base_url) u = true := (List.mem_filter.mp hu).2
    have h2 : (!isInternal (netlocOf base_url) u) = true := (List.mem_filter.mp hv).2
    rw [h1] at h2
    exact Bool.noConfusion h2
  · show (((hrefAnchors doc).map (fun e => urljoin base_url ((getAttr e "href").getD ""))).filter
        (fun u => isInternal (netlocOf base_url) u)).length +
      (((hrefAnchors doc).map (fun e => urljoin base_url ((getAttr e "href").getD ""))).filter
        (fun u => !isInternal (netlocOf base_url) u)).length = (hrefAnchors doc).length
    rw [← List.length_eq_length_filter_add, List.length_map]

/-- Claim C6, witness: on a page at https://example.com/ an anchor with
href /about resolves to https://example.com/about and is classified internal,
hence not external. -/
theorem analyze_links_partition_witness :
    "https://example.com/about" ∈
      (analyze_links [⟨"a", "", [("href", "/about")]⟩] "https://example.com/").1 ∧
    "https://example.com/about" ∉
      (analyze_links [⟨"a", "", [("href", "/about")]⟩] "https://example.com/").2 :=
  ⟨by decide,
   (analyze_links_partition [⟨"a", "", [("href", "/about")]⟩] "https://example.com/").1
     "https://example.com/about" (by decide)⟩

/-- The document of the C8 scenario: a single title element with text Short
and no meta description. -/
def docC8 : HtmlDoc := [⟨"title", "Short", []⟩]

/-- Claim C8, counterexample: the sentinel string No description found has 20
characters, not 22, so description_length is 20 on the scenario document. -/
theorem description_sentinel_length_not_22 :
    (extract_meta_tags docC8).description = "No description found" ∧
    (extract_meta_tags docC8).description_length = 20 ∧
    (extract_meta_tags docC8).description_length ≠ 22 :=
  ⟨rfl, rfl, by decide⟩

/-- Claim C8, amended: on the scenario document the extractor returns without
error title_length = 5 (check 2 fails), the description sentinel of length 20
(checks 3 and 4 fail), the score excludes those points (at most 3 of 6 checks
can pass, so the score is at most 50), and the length fields always count the
characters of the resolved strings, sentinel included. -/
theorem short_title_scenario :
    (extract_meta_tags docC8).title_length = 5 ∧
    (extract_meta_tags docC8).description = "No description found" ∧
    (extract_meta_tags docC8).description_length = 20 ∧
    (∀ img url, ((checks (extract_meta_tags docC8) img url).map (fun c => c.2)).take 4
      = [true, false, false, false]) ∧
    (∀ img url, seo_score (extract_meta_tags docC8) img url ≤ 100 * 3 / 6) ∧
    (∀ doc : HtmlDoc, (extract_meta_tags doc).title_length = (extract_meta_tags doc).title.length ∧
      (extract_meta_tags doc).description_length = (extract_meta_tags doc).description.length) := by
  refine ⟨rfl, rfl, rfl, fun img url => rfl, fun img url => ?_, fun doc => ⟨rfl, rfl⟩⟩
  have hc : checks (extract_meta_tags docC8) img url =
      [("Title tag present", true), ("Title length optimal", false),
       ("Meta description present", false), ("Description length optimal", false),
       ("SSL enabled", startswith url "https"),
       ("Images have alt tags", imagesAltCheck img)] := rfl
  unfold seo_score passedChecks
  rw [hc]
  simp only [List.countP_cons, List.countP_nil]
  rcases hb5 : startswith url "https" <;> rcases hb6 : imagesAltCheck img <;>
    simp [hb5, hb6] <;> norm_num

/-- Claim C9: the recommender evaluates its six conditions independently in
the fixed order (title length, description length, missing h1, images without
alt with the count in the issue text, load time above 3 seconds, URL not
starting with https), the output order is exactly the evaluation order (the
transcription of the source equals the filter of the ordered candidate list,
no re-sort by priority), and the result is empty exactly when no condition
triggers. -/
theorem recommendations_fixed_order (m : MetaData) (hs : List (String × List String))
    (img : ImageStats) (load_time : ℚ) (url : String) :
    recommendations m hs img load_time url =
      ((recCandidates m hs img load_time url).filter (fun p => p.1)).map (fun p => p.2) ∧
    (recommendations m hs img load_time url = [] ↔
      ∀ p ∈ recCandidates m hs img load_time url, p.1 = false) ∧
    (recCandidates m hs img load_time url).map (fun p => p.2) =
      [recTitleLen, recDescLen, recH1, recAlt img.without_alt, recLoad, recSsl] := by
  have hmain : recommendations m hs img load_time url =
      ((recCandidates m hs img load_time url).filter (fun p => p.1)).map (fun p => p.2) := by
    by_cases h1 : 30 ≤ m.title_length ∧ m.title_length ≤ 60 <;>
    by_cases h2 : 120 ≤ m.description_length ∧ m.description_length ≤ 160 <;>
    by_cases h3 : ((hs.lookup "h1").getD []).isEmpty = true <;>
    by_cases h4 : 0 < img.without_alt <;>
    by_cases h5 : 3 < load_time <;>
    by_cases h6 : startswith url "https" = true <;>
    simp [recommendations, recCandidates, h1, h2, h3, h4, h5, h6]
  refine ⟨hmain, ?_, rfl⟩
  rw [hmain]
  simp [List.filter_eq_nil_iff]

/-- Claim C9, witness: the conclusion instantiated at the metadata of the
scenario document, the headings of the empty document, all-zero image
statistics, zero load time and a non-https URL. -/
theorem recommendations_fixed_order_witness :
    recommendations (extract_meta_tags docC8) (extract_headings []) ⟨0, 0, 0⟩ 0 "http://x" =
      ((recCandidates (extract_meta_tags docC8) (extract_headings []) ⟨0, 0, 0⟩ 0 "http://x").filter
        (fun p => p.1)).map (fun p => p.2) :=
  (recommendations_fixed_order (extract_meta_tags docC8) (extract_headings []) ⟨0, 0, 0⟩ 0 "http://x").1
